import Mathlib

set_option maxRecDepth 100000

/-!
Verification of the Kraken one-shot liquidation client (`src/main.rs`).

The program is embedded shallowly:

* bytes are `List Nat` (each element intended `< 256`);
* the `sha2` crate's SHA-256 / SHA-512 are implemented from FIPS 180-4,
  which that crate implements;
* the `hmac` crate's incremental MAC interface is modelled as a state that
  accumulates updates and applies HMAC at `finalize`, which is the
  functional behaviour of the crate;
* the `base64` crate's standard-alphabet `encode` / `decode` are modelled
  directly (`decode` returns `Option`, `none` standing for the `Err` that
  `generate_signature` turns into a panic via `.expect`);
* `f64` string parsing (`str::parse::<f64>` in `main`) is modelled by the
  documented grammar of `f64::from_str`, keeping the exact decimal value;
  the only use the program makes of the parsed float is the comparison
  `> 0.0`, which is decided exactly against the rounding threshold
  `2 ^ (-1075)` of IEEE-754 binary64 round-to-nearest-even;
* the HTTP layer is cut at the request/response boundary: request builders
  return the request that would be sent (`none` when signing panics first),
  and response processing is a function of the received status code and of
  the deserialization outcome of the body.
-/

/-! ## Bytes and UTF-8 -/

/-- UTF-8 encoding of a single scalar value, as in Rust's `str::as_bytes`. -/
def utf8EncodeChar (c : Char) : List Nat :=
  let n := c.toNat
  if n < 0x80 then [n]
  else if n < 0x800 then
    [0xC0 ||| (n >>> 6), 0x80 ||| (n &&& 0x3F)]
  else if n < 0x10000 then
    [0xE0 ||| (n >>> 12), 0x80 ||| ((n >>> 6) &&& 0x3F), 0x80 ||| (n &&& 0x3F)]
  else
    [0xF0 ||| (n >>> 18), 0x80 ||| ((n >>> 12) &&& 0x3F),
     0x80 ||| ((n >>> 6) &&& 0x3F), 0x80 ||| (n &&& 0x3F)]

/-- The UTF-8 bytes of a string (`s.as_bytes()` in the Rust source). -/
def utf8Bytes (s : String) : List Nat :=
  s.data.flatMap utf8EncodeChar

/-! ## Base64 (standard alphabet, as in the `base64` crate's
`encode`/`decode` free functions) -/

def b64Alphabet : List Char :=
  "ABCDEFGHIJKLMNOPQRSTUVWXYZabcdefghijklmnopqrstuvwxyz0123456789+/".data

def b64Char (i : Nat) : Char := b64Alphabet.getD i 'A'

/-- Index of a character in the standard base64 alphabet, `none` for any
character outside it (including `=`, handled separately). -/
def b64Val (c : Char) : Option Nat :=
  let i := b64Alphabet.indexOf c
  if i < 64 then some i else none

def base64EncodeBytes : List Nat → List Char
  | [] => []
  | [a] => [b64Char (a >>> 2), b64Char ((a <<< 4) % 64), '=', '=']
  | [a, b] => [b64Char (a >>> 2), b64Char (((a <<< 4) ||| (b >>> 4)) % 64),
               b64Char ((b <<< 2) % 64), '=']
  | a :: b :: c :: rest =>
    [b64Char (a >>> 2), b64Char (((a <<< 4) ||| (b >>> 4)) % 64),
     b64Char (((b <<< 2) ||| (c >>> 6)) % 64), b64Char (c % 64)]
    ++ base64EncodeBytes rest

/-- Function `base64::encode` of the Rust source. -/
def base64Encode (bs : List Nat) : String :=
  ⟨base64EncodeBytes bs⟩

/-- Decode a final base64 group of two characters (one output byte). -/
def b64Final2 (a b : Char) : Option (List Nat) :=
  (b64Val a).bind fun va => (b64Val b).bind fun vb =>
    if vb % 16 = 0 then some [((va <<< 2) ||| (vb >>> 4)) % 256] else none

/-- Decode a final base64 group of three characters (two output bytes). -/
def b64Final3 (a b c : Char) : Option (List Nat) :=
  (b64Val a).bind fun va => (b64Val b).bind fun vb => (b64Val c).bind fun vc =>
    if vc % 4 = 0 then
      some [((va <<< 2) ||| (vb >>> 4)) % 256, ((vb <<< 4) ||| (vc >>> 2)) % 256]
    else none

/-- Decode a base64 character stream in groups of four; the final group may
carry `=` padding (or be a bare 2- or 3-character remainder, which the
`base64` crate also accepts); non-canonical trailing bits are rejected,
as in the crate's standard config. -/
def base64DecodeChars : List Char → Option (List Nat)
  | [] => some []
  | [a, b] => b64Final2 a b
  | [a, b, c] => b64Final3 a b c
  | [a, b, '=', '='] => b64Final2 a b
  | [a, b, c, '='] => b64Final3 a b c
  | a :: b :: c :: d :: rest =>
    (b64Val a).bind fun va => (b64Val b).bind fun vb =>
    (b64Val c).bind fun vc => (b64Val d).bind fun vd =>
    (base64DecodeChars rest).map fun tail =>
      ((va <<< 2) ||| (vb >>> 4)) % 256 ::
      ((vb <<< 4) ||| (vc >>> 2)) % 256 ::
      ((vc <<< 6) ||| vd) % 256 :: tail
  | _ => none

/-- Function `base64::decode` of the Rust source; `none` models the `Err` case that
`generate_signature` escalates to a panic with `.expect`. -/
def base64Decode (s : String) : Option (List Nat) :=
  base64DecodeChars s.data

/-! ## SHA-2 core (FIPS 180-4, the algorithms of the `sha2` crate) -/

/-- Truncation to a `w`-bit machine word. -/
def maskW (w x : Nat) : Nat := x % 2 ^ w

/-- Right rotation of a `w`-bit word. -/
def rotr (w n x : Nat) : Nat := maskW w ((x >>> n) ||| (x <<< (w - n)))

/-- Bitwise complement of a `w`-bit word. -/
def bnot (w x : Nat) : Nat := 2 ^ w - 1 - x

/-- Big-endian byte rendering of a value on `n` bytes. -/
def beBytes (n v : Nat) : List Nat :=
  (List.range n).map fun i => (v >>> (8 * (n - 1 - i))) % 256

/-- Big-endian value of a byte list. -/
def beVal (bs : List Nat) : Nat := bs.foldl (fun a b => a * 256 + b) 0

/-- Split a list into chunks of `n`; `fuel ≥ l.length` makes it total. -/
def chunksOf (n : Nat) : Nat → List Nat → List (List Nat)
  | 0, _ => []
  | _, [] => []
  | fuel + 1, l => l.take n :: chunksOf n fuel (l.drop n)

/-- FIPS 180-4 padding: `0x80`, zeros, and the bit length on
`lenBytes` bytes, up to a multiple of `blockLen`. -/
def shaPad (blockLen lenBytes : Nat) (msg : List Nat) : List Nat :=
  let L := msg.length
  let zeros := (blockLen - (L + 1 + lenBytes) % blockLen) % blockLen
  msg ++ 0x80 :: List.replicate zeros 0 ++ beBytes lenBytes (8 * L)

/-- Extend a 16-word message schedule by `steps` further words
(`W t = s1 (W (t-2)) + W (t-7) + s0 (W (t-15)) + W (t-16)`). -/
def extendSchedule (w : Nat) (s0 s1 : Nat → Nat) : Nat → List Nat → List Nat
  | 0, acc => acc
  | steps + 1, acc =>
    let g := fun i => acc.getD (acc.length - i) 0
    extendSchedule w s0 s1 steps
      (acc ++ [maskW w (s1 (g 2) + g 7 + s0 (g 15) + g 16)])

/-- One SHA-2 compression round on the 8-word working state. -/
def compressRound (w : Nat) (S0 S1 : Nat → Nat) (st : List Nat)
    (kw : Nat × Nat) : List Nat :=
  match st with
  | [a, b, c, d, e, f, g, h] =>
    let ch := (e &&& f) ^^^ (bnot w e &&& g)
    let maj := (a &&& b) ^^^ (a &&& c) ^^^ (b &&& c)
    let t1 := maskW w (h + S1 e + ch + kw.1 + kw.2)
    let t2 := maskW w (S0 a + maj)
    [maskW w (t1 + t2), a, b, c, maskW w (d + t1), e, f, g]
  | st => st

/-- Compress one block: build the message schedule, run the rounds, add the
result into the hash state. -/
def compressBlock (w wordBytes : Nat) (K : List Nat) (S0 S1 s0 s1 : Nat → Nat)
    (st block : List Nat) : List Nat :=
  let w0 := (chunksOf wordBytes block.length block).map beVal
  let ws := extendSchedule w s0 s1 (K.length - 16) w0
  let out := (K.zip ws).foldl (compressRound w S0 S1) st
  (st.zip out).map fun p => maskW w (p.1 + p.2)

/-- Iterate the compression over the blocks of the padded message. -/
def sha2Run (w wordBytes blockLen : Nat) (K H0 : List Nat)
    (S0 S1 s0 s1 : Nat → Nat) (msg : List Nat) : List Nat :=
  let padded := shaPad blockLen (2 * wordBytes) msg
  let final := (chunksOf blockLen padded.length padded).foldl
    (compressBlock w wordBytes K S0 S1 s0 s1) H0
  final.flatMap (beBytes wordBytes)

/-- The 64 SHA-256 round constants of FIPS 180-4 (the first 32 bits of
the fractional parts of the cube roots of the first 64 primes), written
in decimal. -/
def sha256K : List Nat := [
  1116352408, 1899447441, 3049323471, 3921009573, 961987163, 1508970993,
  2453635748, 2870763221, 3624381080, 310598401, 607225278, 1426881987,
  1925078388, 2162078206, 2614888103, 3248222580, 3835390401, 4022224774,
  264347078, 604807628, 770255983, 1249150122, 1555081692, 1996064986,
  2554220882, 2821834349, 2952996808, 3210313671, 3336571891, 3584528711,
  113926993, 338241895, 666307205, 773529912, 1294757372, 1396182291,
  1695183700, 1986661051, 2177026350, 2456956037, 2730485921, 2820302411,
  3259730800, 3345764771, 3516065817, 3600352804, 4094571909, 275423344,
  430227734, 506948616, 659060556, 883997877, 958139571, 1322822218,
  1537002063, 1747873779, 1955562222, 2024104815, 2227730452, 2361852424,
  2428436474, 2756734187, 3204031479, 3329325298]

/-- The SHA-256 initial hash value (fractional parts of the square roots
of the first 8 primes), written in decimal. -/
def sha256H0 : List Nat := [
  1779033703, 3144134277, 1013904242, 2773480762,
  1359893119, 2600822924, 528734635, 1541459225]

/-- The 80 SHA-512 round constants of FIPS 180-4 (the first 64 bits of
the fractional parts of the cube roots of the first 80 primes), written
in decimal. -/
def sha512K : List Nat := [
  4794697086780616226, 8158064640168781261, 13096744586834688815, 16840607885511220156,
  4131703408338449720, 6480981068601479193, 10538285296894168987, 12329834152419229976,
  15566598209576043074, 1334009975649890238, 2608012711638119052, 6128411473006802146,
  8268148722764581231, 9286055187155687089, 11230858885718282805, 13951009754708518548,
  16472876342353939154, 17275323862435702243, 1135362057144423861, 2597628984639134821,
  3308224258029322869, 5365058923640841347, 6679025012923562964, 8573033837759648693,
  10970295158949994411, 12119686244451234320, 12683024718118986047, 13788192230050041572,
  14330467153632333762, 15395433587784984357, 489312712824947311, 1452737877330783856,
  2861767655752347644, 3322285676063803686, 5560940570517711597, 5996557281743188959,
  7280758554555802590, 8532644243296465576, 9350256976987008742, 10552545826968843579,
  11727347734174303076, 12113106623233404929, 14000437183269869457, 14369950271660146224,
  15101387698204529176, 15463397548674623760, 17586052441742319658, 1182934255886127544,
  1847814050463011016, 2177327727835720531, 2830643537854262169, 3796741975233480872,
  4115178125766777443, 5681478168544905931, 6601373596472566643, 7507060721942968483,
  8399075790359081724, 8693463985226723168, 9568029438360202098, 10144078919501101548,
  10430055236837252648, 11840083180663258601, 13761210420658862357, 14299343276471374635,
  14566680578165727644, 15097957966210449927, 16922976911328602910, 17689382322260857208,
  500013540394364858, 748580250866718886, 1242879168328830382, 1977374033974150939,
  2944078676154940804, 3659926193048069267, 4368137639120453308, 4836135668995329356,
  5532061633213252278, 6448918945643986474, 6902733635092675308, 7801388544844847127]

/-- The SHA-512 initial hash value (fractional parts of the square roots
of the first 8 primes), written in decimal. -/
def sha512H0 : List Nat := [
  7640891576956012808, 13503953896175478587,
  4354685564936845355, 11912009170470909681,
  5840696475078001361, 11170449401992604703,
  2270897969802886507, 6620516959819538809]

/-- SHA-256 of a byte list (the `Sha256` of the `sha2` crate). -/
def sha256 (msg : List Nat) : List Nat :=
  sha2Run 32 4 64 sha256K sha256H0
    (fun x => rotr 32 2 x ^^^ rotr 32 13 x ^^^ rotr 32 22 x)
    (fun x => rotr 32 6 x ^^^ rotr 32 11 x ^^^ rotr 32 25 x)
    (fun x => rotr 32 7 x ^^^ rotr 32 18 x ^^^ (x >>> 3))
    (fun x => rotr 32 17 x ^^^ rotr 32 19 x ^^^ (x >>> 10))
    msg

/-- SHA-512 of a byte list (the `Sha512` of the `sha2` crate). -/
def sha512 (msg : List Nat) : List Nat :=
  sha2Run 64 8 128 sha512K sha512H0
    (fun x => rotr 64 28 x ^^^ rotr 64 34 x ^^^ rotr 64 39 x)
    (fun x => rotr 64 14 x ^^^ rotr 64 18 x ^^^ rotr 64 41 x)
    (fun x => rotr 64 1 x ^^^ rotr 64 8 x ^^^ (x >>> 7))
    (fun x => rotr 64 19 x ^^^ rotr 64 61 x ^^^ (x >>> 6))
    msg

/-! ## HMAC (RFC 2104, as implemented by the `hmac` crate) -/

/-- Generic HMAC over a hash with the given block length. -/
def hmac (hash : List Nat → List Nat) (blockLen : Nat)
    (key msg : List Nat) : List Nat :=
  let k0 := if blockLen < key.length then hash key else key
  let k := k0 ++ List.replicate (blockLen - k0.length) 0
  hash ((k.map (· ^^^ 0x5c)) ++ hash ((k.map (· ^^^ 0x36)) ++ msg))

/-- HMAC-SHA-512 (`Hmac<Sha512>` in the source; block length 128). -/
def hmacSha512 (key msg : List Nat) : List Nat :=
  hmac sha512 128 key msg

/-! ## Incremental hasher and MAC states

The Rust source drives `Sha256` and `Hmac<Sha512>` through the incremental
`update`/`finalize` interface.  Functionally (and per the crates' contract)
a sequence of updates hashes the concatenation of the fed data, which is
what these states capture. -/

structure Sha256State where
  buf : List Nat
deriving Repr, DecidableEq

/-- Rust `Sha256::new()`. -/
def Sha256State.new : Sha256State := ⟨[]⟩

/-- Rust `sha256.update(data)`. -/
def Sha256State.update (h : Sha256State) (data : List Nat) : Sha256State :=
  ⟨h.buf ++ data⟩

/-- Rust `sha256.finalize()`. -/
def Sha256State.finalize (h : Sha256State) : List Nat := sha256 h.buf

structure HmacSha512State where
  key : List Nat
  buf : List Nat
deriving Repr, DecidableEq

/-- Rust `HmacSha512::new_from_slice(key)`; the `Result` it returns is
always `Ok` for HMAC ("HMAC can take key of any size"), so the state is
returned directly. -/
def HmacSha512State.new_from_slice (key : List Nat) : HmacSha512State :=
  ⟨key, []⟩

/-- Rust `mac.update(data)`. -/
def HmacSha512State.update (m : HmacSha512State) (data : List Nat) : HmacSha512State :=
  ⟨m.key, m.buf ++ data⟩

/-- Rust `mac.finalize().into_bytes()`. -/
def HmacSha512State.finalize (m : HmacSha512State) : List Nat :=
  hmacSha512 m.key m.buf

/-! ## The signer (`generate_signature`, src/main.rs lines 29-45) -/

/-- Shallow embedding of `generate_signature`.  The returned `Option` models
the panic of `.expect("Invalid base64 API secret")`: `none` is the abort on
a malformed base64 secret, and no result exists past that point.
`format!("{}{}", nonce, post_data).as_bytes()` is `utf8Bytes (nonce ++ post_data)`. -/
def generate_signature (api_secret nonce endpoint post_data : String) :
    Option String :=
  (base64Decode api_secret).map fun api_secret_decoded =>
    let sha256st := Sha256State.new
    let sha256st := sha256st.update (utf8Bytes (nonce ++ post_data))
    let hash := sha256st.finalize
    let mac := HmacSha512State.new_from_slice api_secret_decoded
    let mac := mac.update (utf8Bytes endpoint)
    let mac := mac.update hash
    base64Encode mac.finalize

/-! ## Form URL-encoding (`reqwest`'s `.form(&params)`, via `serde_urlencoded`)

`reqwest` serializes the `HashMap` handed to `.form` as
`key=value&key=value…` in the map's iteration order, percent-encoding with
the `application/x-www-form-urlencoded` set (alphanumerics and `*-._`
verbatim, space as `+`).  A `std::collections::HashMap`'s iteration order
is unspecified and randomized per process, so the order in which the
entries are serialized is *not* fixed by the program: the model keeps the
entries as a list in insertion order and quantifies over permutations where
the transmitted byte order matters. -/

def formUrlByte (b : Nat) : List Char :=
  if (0x30 ≤ b ∧ b ≤ 0x39) ∨ (0x41 ≤ b ∧ b ≤ 0x5A) ∨ (0x61 ≤ b ∧ b ≤ 0x7A)
      ∨ b = 0x2A ∨ b = 0x2D ∨ b = 0x2E ∨ b = 0x5F then
    [Char.ofNat b]
  else if b = 0x20 then ['+']
  else
    let hex := "0123456789ABCDEF".data
    ['%', hex.getD (b / 16) '0', hex.getD (b % 16) '0']

def formUrlComponent (s : String) : String :=
  ⟨(utf8Bytes s).flatMap formUrlByte⟩

/-- Serialization of form parameters in the given entry order. -/
def formUrlEncode (ps : List (String × String)) : String :=
  String.intercalate "&" (ps.map fun p => formUrlComponent p.1 ++ "=" ++ formUrlComponent p.2)

/-! ## Requests

A private Kraken request as the program assembles it: URL, the two
authentication headers, and the form parameters handed to `.form`.
Builders return `none` when `generate_signature` panics, which in the
source happens strictly before `client.post(...).send()` builds or sends
anything: no request value exists in that case. -/

structure PrivateRequest where
  url : String
  apiKey : String
  apiSign : String
  formParams : List (String × String)
deriving Repr, DecidableEq

/-- Request assembly of `fetch_balance` (src/main.rs lines 48-71), up to the
`send` boundary, for a given nonce (the source draws the nonce from the
clock; it is a parameter here). -/
def fetchBalanceRequest (api_key api_secret nonce : String) :
    Option PrivateRequest :=
  let url := "https://api.kraken.com/0/private/Balance"
  let endpoint := "/0/private/Balance"
  let params := [("nonce", nonce)]
  let post_data := "nonce=" ++ nonce
  (generate_signature api_secret nonce endpoint post_data).map
    fun api_sign => ⟨url, api_key, api_sign, params⟩

/-- The five entries inserted into `params` in `place_market_order_usd`
(src/main.rs lines 108-113), in insertion order. -/
def addOrderFormParams (nonce volume : String) : List (String × String) :=
  [("nonce", nonce), ("ordertype", "market"), ("type", "sell"),
   ("volume", volume), ("pair", "USDCUSD")]

/-- The string signed in `place_market_order_usd` (line 116):
`format!("nonce={}&ordertype=market&type=sell&volume={}&pair=USDCUSD", nonce, volume)`. -/
def addOrderPostData (nonce volume : String) : String :=
  "nonce=" ++ nonce ++ "&ordertype=market&type=sell&volume=" ++ volume ++ "&pair=USDCUSD"

/-- Request assembly of `place_market_order_usd` (src/main.rs lines 102-133),
up to the `send` boundary. -/
def placeOrderRequest (api_key api_secret nonce volume : String) :
    Option PrivateRequest :=
  let url := "https://api.kraken.com/0/private/AddOrder"
  let endpoint := "/0/private/AddOrder"
  let params := addOrderFormParams nonce volume
  let post_data := addOrderPostData nonce volume
  (generate_signature api_secret nonce endpoint post_data).map
    fun api_sign => ⟨url, api_key, api_sign, params⟩

/-! ## Response processing -/

/-- The `BalanceResponse` / `OrderResponse` envelope (both have the same
shape): `error: Vec<String>`, `result: Option<HashMap<String,String>>`.
The `HashMap` is an association list with the keys distinct. -/
structure ApiResponse where
  error : List String
  result : Option (List (String × String))
deriving Repr, DecidableEq

/-- Rust `reqwest::StatusCode::is_success()`: 2xx. -/
def isSuccessStatus (status : Nat) : Bool :=
  200 ≤ status && status < 300

/-- Response processing of `fetch_balance` (src/main.rs lines 74-99).
`body = none` models a body on which `serde_json::from_str` fails; the
resulting `Except.error` is the `?`-propagated deserialization error.
Note the body is only deserialized when the status is 2xx. -/
def fetchBalanceProcess (status : Nat) (body : Option ApiResponse) :
    Except Unit (Option (List (String × String))) :=
  if isSuccessStatus status then
    match body with
    | none => .error ()
    | some balance =>
      if balance.error.isEmpty then
        match balance.result with
        | some result => .ok (some result)
        | none => .ok none
      else .ok none
  else .ok none

/-- Response processing of `place_market_order_usd` (src/main.rs lines
136-154): every branch falls through to `Ok(())`; only a failed
deserialization of a 2xx body escapes through `?`. -/
def placeOrderProcess (status : Nat) (body : Option ApiResponse) :
    Except Unit Unit :=
  if isSuccessStatus status then
    match body with
    | none => .error ()
    | some _ => .ok ()
  else .ok ()

/-! ## `f64` parsing (`str::parse::<f64>()` in `main`, line 176)

Rust's `f64::from_str` grammar:
`Sign? ( 'inf' | 'infinity' | 'nan' | Number )` with
`Number ::= (Digit+ | Digit+ '.' Digit* | Digit* '.' Digit+) Exp?`,
`Exp ::= ('e'|'E') Sign? Digit+`, special words case-insensitive.
The parse keeps the exact decimal value `m * 10^d`; the only comparison the
program performs on the float is `> 0.0`, decided below against the IEEE-754
binary64 rounding threshold. -/

inductive F64Mag where
  | nan : F64Mag
  | inf : F64Mag
  | finite (m : Nat) (d : Int) : F64Mag
deriving Repr, DecidableEq

structure ParsedF64 where
  neg : Bool
  mag : F64Mag
deriving Repr, DecidableEq

def isAsciiDigit (c : Char) : Bool := '0' ≤ c && c ≤ '9'

def digitsVal (cs : List Char) : Nat :=
  cs.foldl (fun a c => a * 10 + (c.toNat - '0'.toNat)) 0

def parseSign : List Char → Bool × List Char
  | '+' :: rest => (false, rest)
  | '-' :: rest => (true, rest)
  | cs => (false, cs)

def parseExpPart : List Char → Option Int
  | [] => some 0
  | e :: rest =>
    if e = 'e' ∨ e = 'E' then
      let (eneg, rest) := parseSign rest
      let (digs, rest) := rest.span isAsciiDigit
      if digs ≠ [] ∧ rest = [] then
        some (if eneg then -(digitsVal digs : Int) else (digitsVal digs : Int))
      else none
    else none

def parseNumber (cs : List Char) : Option (Nat × Int) :=
  let (intDigs, rest) := cs.span isAsciiDigit
  let (fracDigs, rest) :=
    match rest with
    | '.' :: r => r.span isAsciiDigit
    | r => ([], r)
  if intDigs = [] ∧ fracDigs = [] then none
  else
    (parseExpPart rest).map fun e =>
      (digitsVal (intDigs ++ fracDigs), e - fracDigs.length)

/-- Rust `f64::from_str`, keeping the exact decimal value before rounding;
`none` is the `Err` case, which `main`'s `.unwrap()` turns into a panic. -/
def parseF64 (s : String) : Option ParsedF64 :=
  match s.data with
  | [] => none
  | cs =>
    let (neg, rest) := parseSign cs
    let low : List Char := rest.map Char.toLower
    if low = "inf".data ∨ low = "infinity".data then some ⟨neg, .inf⟩
    else if low = "nan".data then some ⟨neg, .nan⟩
    else (parseNumber rest).map fun p => ⟨neg, .finite p.1 p.2⟩

/-- Whether the exact decimal `m * 10^d` survives IEEE-754 binary64
round-to-nearest-even as a positive value: values at or below
`2^(-1075)` (half the least subnormal) round to `+0.0`. -/
def magRoundsPositive (m : Nat) (d : Int) : Bool :=
  if 0 ≤ d then decide (0 < m)
  else decide (10 ^ (-d).toNat < m * 2 ^ 1075)

/-- The comparison `x > 0.0` on the parsed `f64` (NaN compares false;
positive infinity and every finite value that rounds above zero compare
true; an overflow to `+inf` is still positive, so rounding to infinity
needs no separate case). -/
def f64IsPositive (p : ParsedF64) : Bool :=
  match p.mag with
  | .nan => false
  | .inf => !p.neg
  | .finite m d => !p.neg && magRoundsPositive m d

/-! ## Orchestration (`main`, src/main.rs lines 156-198) -/

/-- The order `place_market_order_usd` is asked to place, as fixed by its
caller and its own hardcoded constants. -/
structure OrderSpec where
  pair : String
  ordertype : String
  orderSide : String
  volume : String
deriving Repr, DecidableEq

/-- What `main` does after the balance task is joined. -/
inductive MainOutcome where
  | placed (order : OrderSpec) : MainOutcome
  | noOrder : MainOutcome
  | panicked : MainOutcome
deriving Repr, DecidableEq

/-- The joined result of the balance task as `main` sees it:
outer `Option` = the `tokio::spawn` join result (`none` for a join error),
inner `Except` = `fetch_balance`'s own `Result`,
innermost `Option` = balance present or not. -/
abbrev FetchOutcome : Type :=
  Option (Except Unit (Option (List (String × String))))

/-- Shallow embedding of `main`'s branch structure (lines 171-197):
`if let Ok(Ok(Some(balance)))`, then `balance.get("USDC")`, then
`usdc_balance.parse::<f64>().unwrap() > 0.0`.  A parse failure is the
`unwrap` panic; every other fall-through path performs no order. -/
def mainStep (fetched : FetchOutcome) : MainOutcome :=
  match fetched with
  | some (.ok (some balance)) =>
    match balance.lookup "USDC" with
    | some usdc_balance =>
      match parseF64 usdc_balance with
      | none => .panicked
      | some v =>
        if f64IsPositive v then
          .placed ⟨"USDCUSD", "market", "sell", usdc_balance⟩
        else .noOrder
    | none => .noOrder
  | _ => .noOrder

/-! ## Helper lemmas -/

theorem utf8Bytes_append (a b : String) :
    utf8Bytes (a ++ b) = utf8Bytes a ++ utf8Bytes b := by
  simp [utf8Bytes, String.data_append]

/-! ## Claims -/

/-- C1: for every base64-decodable secret, `generate_signature` returns the
base64 encoding of HMAC-SHA-512 keyed with the decoded secret over the
endpoint path's UTF-8 bytes followed immediately by the 32-byte SHA-256
digest of the nonce string concatenated with the post body string (no
separator) — the reference definition, bit-exactly. -/
theorem generate_signature_spec (secret nonce endpoint body : String)
    (key : List Nat) (h : base64Decode secret = some key) :
    generate_signature secret nonce endpoint body =
      some (base64Encode (hmacSha512 key
        (utf8Bytes endpoint ++ sha256 (utf8Bytes nonce ++ utf8Bytes body)))) := by
  simp [generate_signature, h, Sha256State.new, Sha256State.update,
    Sha256State.finalize, HmacSha512State.new_from_slice, HmacSha512State.update,
    HmacSha512State.finalize, utf8Bytes_append]

/-- Witness for C1 at a concrete decodable secret (base64 of `secret`). -/
theorem generate_signature_spec_witness :
    base64Decode "c2VjcmV0" = some [115, 101, 99, 114, 101, 116] ∧
    generate_signature "c2VjcmV0" "17" "/0/private/Balance" "nonce=17" =
      some (base64Encode (hmacSha512 [115, 101, 99, 114, 101, 116]
        (utf8Bytes "/0/private/Balance" ++
          sha256 (utf8Bytes "17" ++ utf8Bytes "nonce=17")))) :=
  ⟨by decide, generate_signature_spec "c2VjcmV0" "17" "/0/private/Balance"
    "nonce=17" [115, 101, 99, 114, 101, 116] (by decide)⟩

/-- C2 (counterexample): the transmitted AddOrder form body is serialized
from a `std::collections::HashMap`, whose iteration order is unspecified
and randomized per process, so it is not guaranteed byte-identical to the
fixed-order signed `post_data`.  With nonce `1` and volume `3.2`, the
reversed iteration order is a permutation of the inserted entries whose
serialization differs from the signed string, while the insertion order
itself reproduces it exactly. -/
theorem addOrderForm_reorder_mismatch :
    List.Perm ((addOrderFormParams "1" "3.2").reverse) (addOrderFormParams "1" "3.2") ∧
    formUrlEncode ((addOrderFormParams "1" "3.2").reverse) ≠ addOrderPostData "1" "3.2" ∧
    formUrlEncode (addOrderFormParams "1" "3.2") = addOrderPostData "1" "3.2" :=
  ⟨List.reverse_perm _, by decide, by decide⟩

/-- C3: `main` places an order iff the balance fetch succeeded with a map
holding a `USDC` entry whose string parses (per `f64::from_str`, the parse
the code performs) to a value comparing greater than `0.0`; in particular a
`USDC` balance of `"0.0"` places no order. -/
theorem mainStep_places_iff_positive :
    (∀ fetched : FetchOutcome,
      (∃ o, mainStep fetched = .placed o) ↔
        ∃ balance v p, fetched = some (.ok (some balance)) ∧
          balance.lookup "USDC" = some v ∧ parseF64 v = some p ∧
          f64IsPositive p = true) ∧
    mainStep (some (.ok (some [("USDC", "0.0")]))) = .noOrder := by
  constructor
  · intro fetched
    constructor
    · rintro ⟨o, ho⟩
      rcases fetched with _ | f
      · simp [mainStep] at ho
      rcases f with u | bal
      · simp [mainStep] at ho
      rcases bal with _ | balance
      · simp [mainStep] at ho
      rcases hv : balance.lookup "USDC" with _ | v
      · simp [mainStep, hv] at ho
      rcases hp : parseF64 v with _ | p
      · simp [mainStep, hv, hp] at ho
      by_cases hpos : f64IsPositive p = true
      · exact ⟨balance, v, p, rfl, hv, hp, hpos⟩
      · simp [mainStep, hv, hp, hpos] at ho
    · rintro ⟨balance, v, p, rfl, hv, hp, hpos⟩
      exact ⟨⟨"USDCUSD", "market", "sell", v⟩, by simp [mainStep, hv, hp, hpos]⟩
  · decide

/-- Witness for C3: the spec's example balance `"12.5"` leads to an order. -/
theorem mainStep_places_iff_positive_witness :
    ∃ o, mainStep (some (.ok (some [("USDC", "12.5")]))) = .placed o :=
  (mainStep_places_iff_positive.1 _).2
    ⟨[("USDC", "12.5")], "12.5", ⟨false, .finite 125 (-1)⟩, rfl, by decide,
      by decide, by decide⟩

/-- C4: `fetch_balance` response handling: on a 2xx status with an empty
error list and a present result map it returns `Ok(Some(map))`; on a 2xx
status a non-empty error list, or an absent result map, yields `Ok(None)`;
a non-2xx status yields `Ok(None)` (the body is not even deserialized). -/
theorem fetchBalanceProcess_spec (status : Nat) (b : ApiResponse) :
    (200 ≤ status ∧ status ≤ 299 → b.error = [] → ∀ r, b.result = some r →
      fetchBalanceProcess status (some b) = .ok (some r)) ∧
    (200 ≤ status ∧ status ≤ 299 → b.error ≠ [] →
      fetchBalanceProcess status (some b) = .ok none) ∧
    (200 ≤ status ∧ status ≤ 299 → b.error = [] → b.result = none →
      fetchBalanceProcess status (some b) = .ok none) ∧
    (¬(200 ≤ status ∧ status ≤ 299) →
      ∀ body, fetchBalanceProcess status body = .ok none) := by
  have hs : isSuccessStatus status = true ↔ (200 ≤ status ∧ status ≤ 299) := by
    simp [isSuccessStatus]
    omega
  refine ⟨?_, ?_, ?_, ?_⟩
  · intro h he r hr
    simp [fetchBalanceProcess, hs.2 h, he, hr]
  · intro h he
    rcases hb : b.error with _ | ⟨x, xs⟩
    · exact absurd hb he
    · simp [fetchBalanceProcess, hs.2 h, hb]
  · intro h he hr
    simp [fetchBalanceProcess, hs.2 h, he, hr]
  · intro h body
    have hf : isSuccessStatus status = false := by
      rcases hcase : isSuccessStatus status
      · rfl
      · exact absurd (hs.1 hcase) h
    simp [fetchBalanceProcess, hf]

/-- Witness for C4 at the spec's example envelope. -/
theorem fetchBalanceProcess_spec_witness :
    (200 ≤ 200 ∧ 200 ≤ 299) ∧
    fetchBalanceProcess 200 (some ⟨[], some [("USDC", "12.5")]⟩) =
      .ok (some [("USDC", "12.5")]) :=
  ⟨by decide, (fetchBalanceProcess_spec 200 ⟨[], some [("USDC", "12.5")]⟩).1
    (by decide) rfl _ rfl⟩

/-- C5: a secret that is not valid base64 makes signing abort (the
`.expect` panic, modelled by `none`), and since both request builders
compute the signature strictly before the send boundary, no request value —
hence no network call — exists for either endpoint. -/
theorem badSecret_no_request (api_key api_secret nonce volume : String)
    (h : base64Decode api_secret = none) :
    generate_signature api_secret nonce "/0/private/Balance" ("nonce=" ++ nonce) = none ∧
    generate_signature api_secret nonce "/0/private/AddOrder"
      (addOrderPostData nonce volume) = none ∧
    fetchBalanceRequest api_key api_secret nonce = none ∧
    placeOrderRequest api_key api_secret nonce volume = none := by
  simp [generate_signature, fetchBalanceRequest, placeOrderRequest, h]

/-- Witness for C5 with the spec's example of a malformed secret (`!`). -/
theorem badSecret_no_request_witness :
    base64Decode "!" = none ∧
    fetchBalanceRequest "key" "!" "1" = none ∧
    placeOrderRequest "key" "!" "1" "3.2" = none :=
  ⟨by decide, (badSecret_no_request "key" "!" "1" "3.2" (by decide)).2.2.1,
    (badSecret_no_request "key" "!" "1" "3.2" (by decide)).2.2.2⟩

/-- C6: `generate_signature` is a deterministic pure function of its four
inputs: it reads nothing besides them in this embedding, and identical
inputs always yield the identical signature. -/
theorem generate_signature_deterministic
    (s1 n1 e1 b1 s2 n2 e2 b2 : String)
    (hs : s1 = s2) (hn : n1 = n2) (he : e1 = e2) (hb : b1 = b2) :
    generate_signature s1 n1 e1 b1 = generate_signature s2 n2 e2 b2 := by
  subst hs hn he hb
  rfl

/-- Witness for C6 at concrete inputs. -/
theorem generate_signature_deterministic_witness :
    ("c2VjcmV0" : String) = "c2VjcmV0" ∧
    generate_signature "c2VjcmV0" "1" "/0/private/Balance" "nonce=1" =
      generate_signature "c2VjcmV0" "1" "/0/private/Balance" "nonce=1" :=
  ⟨rfl, generate_signature_deterministic "c2VjcmV0" "1" "/0/private/Balance"
    "nonce=1" "c2VjcmV0" "1" "/0/private/Balance" "nonce=1" rfl rfl rfl rfl⟩

/-- C7: every order `main` places is on the hardcoded pair `USDCUSD` with
order type `market` and side `sell`, and its volume is exactly the fetched
`USDC` balance string, unmodified. -/
theorem placedOrder_params (fetched : FetchOutcome) (o : OrderSpec)
    (h : mainStep fetched = .placed o) :
    o.pair = "USDCUSD" ∧ o.ordertype = "market" ∧ o.orderSide = "sell" ∧
    ∃ balance, fetched = some (.ok (some balance)) ∧
      balance.lookup "USDC" = some o.volume := by
  rcases fetched with _ | f
  · simp [mainStep] at h
  rcases f with u | bal
  · simp [mainStep] at h
  rcases bal with _ | balance
  · simp [mainStep] at h
  rcases hv : balance.lookup "USDC" with _ | v
  · simp [mainStep, hv] at h
  rcases hp : parseF64 v with _ | p
  · simp [mainStep, hv, hp] at h
  by_cases hpos : f64IsPositive p = true
  · simp [mainStep, hv, hp, hpos] at h
    subst h
    exact ⟨rfl, rfl, rfl, balance, rfl, hv⟩
  · simp [mainStep, hv, hp, hpos] at h

/-- Witness for C7 at the spec's example balance `"3.2"`. -/
theorem placedOrder_params_witness :
    mainStep (some (.ok (some [("USDC", "3.2")]))) =
      .placed ⟨"USDCUSD", "market", "sell", "3.2"⟩ ∧
    ∃ balance, (some (.ok (some [("USDC", "3.2")])) : FetchOutcome) =
        some (.ok (some balance)) ∧
      balance.lookup "USDC" =
        some (OrderSpec.mk "USDCUSD" "market" "sell" "3.2").volume :=
  ⟨by decide, (placedOrder_params _ _ (by decide)).2.2.2⟩

/-- C8: a fetched `USDC` balance string rejected by `f64::from_str` makes
`main` panic at the `unwrap` rather than return normally without an
order. -/
theorem mainStep_panics_on_unparsable (balance : List (String × String))
    (v : String) (hv : balance.lookup "USDC" = some v)
    (hp : parseF64 v = none) :
    mainStep (some (.ok (some balance))) = .panicked := by
  simp [mainStep, hv, hp]

/-- Witness for C8 with the unparsable balance string `abc`. -/
theorem mainStep_panics_on_unparsable_witness :
    ([("USDC", "abc")].lookup "USDC" = some "abc") ∧
    parseF64 "abc" = none ∧
    mainStep (some (.ok (some [("USDC", "abc")]))) = .panicked :=
  ⟨by decide, by decide,
    mainStep_panics_on_unparsable [("USDC", "abc")] "abc" (by decide) (by decide)⟩

/-- C9: `generate_signature` depends on its nonce and body arguments only
through their string concatenation. -/
theorem generate_signature_concat (secret endpoint n1 b1 n2 b2 : String)
    (h : n1 ++ b1 = n2 ++ b2) :
    generate_signature secret n1 endpoint b1 =
      generate_signature secret n2 endpoint b2 := by
  simp only [generate_signature, h]

/-- Witness for C9 at the split `ab / c` versus `a / bc`. -/
theorem generate_signature_concat_witness :
    ("ab" ++ "c" : String) = "a" ++ "bc" ∧
    generate_signature "c2VjcmV0" "ab" "/e" "c" =
      generate_signature "c2VjcmV0" "a" "/e" "bc" :=
  ⟨by decide, generate_signature_concat "c2VjcmV0" "/e" "ab" "c" "a" "bc"
    (by decide)⟩

/-- C10: `place_market_order_usd` response handling returns `Ok(())` for
every response whose body deserializes into the envelope, regardless of
HTTP status and of whether the envelope's error array is empty; the only
non-`Ok` outcome of response processing is a failed deserialization of a
2xx body. -/
theorem placeOrderProcess_spec (status : Nat) :
    (∀ b : ApiResponse, placeOrderProcess status (some b) = .ok ()) ∧
    (∀ body, placeOrderProcess status body ≠ .ok () → body = none) := by
  have hok : ∀ b : ApiResponse, placeOrderProcess status (some b) = .ok () := by
    intro b
    rcases hcase : isSuccessStatus status <;> simp [placeOrderProcess, hcase]
  refine ⟨hok, ?_⟩
  intro body hne
  rcases body with _ | b
  · rfl
  · exact absurd (hok b) hne

/-- Witness for C10: a non-2xx status with a populated error envelope still
yields `Ok(())`. -/
theorem placeOrderProcess_spec_witness :
    placeOrderProcess 403 (some ⟨["EOrder:Insufficient funds"], none⟩) = .ok () :=
  (placeOrderProcess_spec 403).1 ⟨["EOrder:Insufficient funds"], none⟩
